import Mathlib

/-!
Shallow embedding of the query-interpretation engine of the inventory AI
sidecar: the read-only SQL executor (`core/sql_executor.py`), the query
cache (`core/cache.py`), the date-expression resolver and the intent
router of `core/vanna_setup.py`, and the `/query` request flow of
`main.py`.  Strings are modelled as lists of characters and the ASCII
fragment of Python's string primitives is embedded explicitly.
-/

set_option linter.unusedVariables false
set_option maxRecDepth 8192

abbrev Chars := List Char

def lit (s : String) : Chars := s.data

/-- Whitespace characters recognised by Python `str.strip`, `str.split`
    and the regex class `\s` (ASCII fragment). -/
def pyIsSpace (c : Char) : Bool :=
  c = ' ' || c = '\t' || c = '\n' || c = '\r' || c = '\x0b' || c = '\x0c'

/-- Python `str.lower` (ASCII fragment). -/
def lowerChars (s : Chars) : Chars := s.map Char.toLower

/-- Python `str.upper` (ASCII fragment). -/
def upperChars (s : Chars) : Chars := s.map Char.toUpper

/-- Python `str.strip()`: drop leading and trailing whitespace. -/
def stripChars (s : Chars) : Chars :=
  ((s.dropWhile pyIsSpace).reverse.dropWhile pyIsSpace).reverse

/-- Python `str.startswith`. -/
def startsList : Chars → Chars → Bool
  | [], _ => true
  | _ :: _, [] => false
  | p :: ps, c :: cs => p == c && startsList ps cs

/-- Python `str.endswith`. -/
def endsList (p s : Chars) : Bool := startsList p.reverse s.reverse

/-- Python substring containment (`p in s`). -/
def containsSub (p : Chars) : Chars → Bool
  | [] => startsList p []
  | c :: cs => startsList p (c :: cs) || containsSub p cs

/-- Word characters of the regex class `\w` (ASCII fragment), used by the
    word-boundary assertion `\b`. -/
def isWordChar (c : Char) : Bool := c.isAlpha || c.isDigit || c = '_'

/-- Case-insensitive match of the (upper-case) keyword `kw` at the head of
    `s`, with a word boundary required after it. -/
def wordAt (kw s : Chars) : Bool :=
  upperChars (s.take kw.length) == kw &&
    (match s.drop kw.length with
     | [] => true
     | c :: _ => !isWordChar c)

def containsWordAux (kw : Chars) : Bool → Chars → Bool
  | _, [] => false
  | prevWord, c :: cs =>
    (!prevWord && wordAt kw (c :: cs)) || containsWordAux kw (isWordChar c) cs

/-- Python `re.search(r'\b<kw>\b', s, re.IGNORECASE)` as a Boolean, for an
    upper-case keyword `kw` made of word characters. -/
def containsWord (kw s : Chars) : Bool := containsWordAux kw false s

/-- Python `str.split(sep)` scanning (structural recursion on a fuel
    counter that starts at the string length, which every step strictly
    decreases below; the accumulator holds the current piece reversed). -/
def splitOnF (sep : Chars) : Nat → Chars → Chars → List Chars
  | _, [], cur => [cur.reverse]
  | 0, s, cur => [cur.reverse ++ s]
  | fuel + 1, c :: rest, cur =>
    if !sep.isEmpty && startsList sep (c :: rest) then
      cur.reverse :: splitOnF sep fuel ((c :: rest).drop sep.length) []
    else
      splitOnF sep fuel rest (c :: cur)

/-- Python `str.split(sep)` for a non-empty separator. -/
def splitOnList (sep s : Chars) : List Chars := splitOnF sep s.length s []

/-- Python `str.split()` (split on whitespace runs, dropping empties);
    fuelled like `splitOnF`. -/
def pySplitF : Nat → Chars → List Chars
  | _, [] => []
  | 0, _ => []
  | fuel + 1, c :: rest =>
    if pyIsSpace c then pySplitF fuel rest
    else
      ((c :: rest).takeWhile (fun x => !pyIsSpace x)) ::
        pySplitF fuel ((c :: rest).dropWhile (fun x => !pyIsSpace x))

def pySplitGo (s : Chars) : List Chars := pySplitF s.length s

/-- Python `' '.join(ws)`. -/
def joinSpace : List Chars → Chars
  | [] => []
  | [w] => w
  | w :: ws => w ++ ' ' :: joinSpace ws

/-- The normalised question used by the router:
    `' '.join(question.lower().split())`. -/
def questionLower (question : Chars) : Chars :=
  joinSpace (pySplitGo (lowerChars question))

def natChars (n : Nat) : Chars := (Nat.repr n).data

/-- Python `f-string` rendering of a signed integer. -/
def intChars (i : Int) : Chars :=
  if i < 0 then '-' :: natChars i.natAbs else natChars i.toNat

def digitsToNat (ds : Chars) : Nat :=
  ds.foldl (fun acc c => acc * 10 + (c.toNat - 48)) 0

/-- Zero-pad a numeral on the left to width `k`. -/
def padZero (k : Nat) (s : Chars) : Chars := List.replicate (k - s.length) '0' ++ s

/-!
`core/sql_executor.py` — class `SQLExecutor`.
-/

def BLOCKED_KEYWORDS : List Chars :=
  [lit "INSERT", lit "UPDATE", lit "DELETE", lit "DROP", lit "ALTER",
   lit "TRUNCATE", lit "REPLACE", lit "GRANT", lit "REVOKE", lit "ATTACH",
   lit "DETACH"]

/-- Does the statement contain one of the `BLOCKED_KEYWORDS` as a whole
    word (the compiled `BLOCKED_PATTERNS` check of `sql_executor.py`)? -/
def containsBlocked (sql : Chars) : Bool :=
  BLOCKED_KEYWORDS.any (fun kw => containsWord kw sql)

/-- `SQLExecutor._is_safe_query`. -/
def is_safe_query (sql : Chars) : Bool :=
  if sql = [] || stripChars sql = [] then false
  else
    let sqlUpper := stripChars (upperChars sql)
    if !(startsList (lit "SELECT") sqlUpper || startsList (lit "WITH") sqlUpper) then
      false
    else !(containsBlocked sql)

/-- Python `str.rstrip(';')`. -/
def rstripSemi (s : Chars) : Chars :=
  (s.reverse.dropWhile (fun c => c = ';')).reverse

/-- The SQL-string preparation performed by `SQLExecutor.execute` before the
    statement reaches SQLite: safety validation (raising, modelled as
    `none`) and the auto-added `LIMIT` clause. -/
def execute_prepare (sql : Chars) (limit : Nat) : Option Chars :=
  if !is_safe_query sql then none
  else if !containsSub (lit "LIMIT") (upperChars sql) then
    some (rstripSemi sql ++ lit " LIMIT " ++ natChars limit)
  else some sql

/-!
`core/cache.py` — class `QueryCache`.  The in-memory map is modelled as an
association list (Python dicts preserve insertion order); `_save` rewrites
the whole map, so the persisted file always equals the in-memory map.
-/

/-- `QueryCache._normalize`: `text.strip().lower()`. -/
def cacheNormalize (text : Chars) : Chars := lowerChars (stripChars text)

def lookupAssoc (k : Chars) : List (Chars × Chars) → Option Chars
  | [] => none
  | kv :: rest => if kv.1 == k then some kv.2 else lookupAssoc k rest

def setAssoc (k v : Chars) : List (Chars × Chars) → List (Chars × Chars)
  | [] => [(k, v)]
  | kv :: rest => if kv.1 == k then (kv.1, v) :: rest else kv :: setAssoc k v rest

/-- `QueryCache.get`. -/
def cacheGet (cache : List (Chars × Chars)) (question : Chars) : Option Chars :=
  lookupAssoc (cacheNormalize question) cache

/-- `QueryCache.set` (the resulting map; the `!=` guard only skips a
    redundant disk write and does not change the map). -/
def cacheSet (question sql : Chars) (cache : List (Chars × Chars)) :
    List (Chars × Chars) :=
  setAssoc (cacheNormalize question) sql cache

/-!
`core/vanna_setup.py` — `VannaAI.get_date_filter`.  The function lowercases
the question and tries an ordered sequence of rules.  `datetime.now()`
(the system-local clock) is used only to supply a default year when an
explicit `from A to B` date omits the year; it is modelled by the
`sysYear` parameter.
-/

/-- Characters matched by the regex wildcard `.` (anything but newline). -/
def notNl (c : Char) : Bool := c != '\n'

/-- Backtracking tail of `to\s+(.+)`: after the whitespace run of maximal
    length has been tried, shorter runs are tried (`k` counts down). -/
def wsThenRest (v : Chars) : Nat → Option Chars
  | 0 => none
  | k + 1 =>
    let g := (v.drop (k + 1)).takeWhile notNl
    if g.isEmpty then wsThenRest v k else some g

/-- Match `to\s+(.+)` at the head of `u`, returning the second group. -/
def matchToTail (u : Chars) : Option Chars :=
  if startsList (lit "to") u then
    let v := u.drop 2
    wsThenRest v (v.takeWhile pyIsSpace).length
  else none

def wsToTail (u : Chars) : Nat → Option Chars
  | 0 => none
  | k + 1 =>
    match matchToTail (u.drop (k + 1)) with
    | some g => some g
    | none => wsToTail u k

/-- Match `\s+to\s+(.+)` at the head of `u` (greedy whitespace first). -/
def matchWsToTail (u : Chars) : Option Chars :=
  wsToTail u (u.takeWhile pyIsSpace).length

/-- Lazy first group `(.+?)` of the range regex: extend the group one
    character at a time until `\s+to\s+(.+)` matches right after it. -/
def lazyGroup1 : Chars → Chars → Option (Chars × Chars)
  | [], _ => none
  | c :: rest, acc =>
    if notNl c then
      match matchWsToTail rest with
      | some g2 => some (acc ++ [c], g2)
      | none => lazyGroup1 rest (acc ++ [c])
    else none

def afterFromWs (t : Chars) : Nat → Option (Chars × Chars)
  | 0 => none
  | w + 1 =>
    match lazyGroup1 (t.drop (w + 1)) [] with
    | some r => some r
    | none => afterFromWs t w

def afterFrom (t : Chars) : Option (Chars × Chars) :=
  afterFromWs t (t.takeWhile pyIsSpace).length

/-- Python `re.search(r'from\s+(.+?)\s+to\s+(.+)', q)`: leftmost match,
    returning the two groups. -/
def searchFromTo : Chars → Option (Chars × Chars)
  | [] => none
  | c :: cs =>
    match (if startsList (lit "from") (c :: cs) then afterFrom ((c :: cs).drop 4) else none) with
    | some r => some r
    | none => searchFromTo cs

/-- Ordinal suffixes removed by `re.sub(r'(\d+)(st|nd|rd|th)\s+', r'\1 ', s)`. -/
def ordSuffix (s1 s2 : Char) : Bool :=
  (s1 = 's' && s2 = 't') || (s1 = 'n' && s2 = 'd') ||
  (s1 = 'r' && s2 = 'd') || (s1 = 't' && s2 = 'h')

/-- Fuelled scanner for the ordinal-suffix cleanup (`fuel` starts at the
    string length, which every step strictly decreases below). -/
def ordCleanF : Nat → Chars → Chars
  | 0, s => s
  | _ + 1, [] => []
  | fuel + 1, c :: rest =>
    if c.isDigit then
      let ds := (c :: rest).takeWhile Char.isDigit
      let tail := (c :: rest).dropWhile Char.isDigit
      match tail with
      | s1 :: s2 :: t2 =>
        if ordSuffix s1 s2 && !(t2.takeWhile pyIsSpace).isEmpty then
          ds ++ ' ' :: ordCleanF fuel (t2.dropWhile pyIsSpace)
        else ds ++ ordCleanF fuel tail
      | _ => ds ++ ordCleanF fuel tail
    else c :: ordCleanF fuel rest

def ordClean (s : Chars) : Chars := ordCleanF s.length s

/-- Directive `%d` of `datetime.strptime`: regex `3[01]|[12]\d|0[1-9]|[1-9]`. -/
def scanDay : Chars → Option (Nat × Chars)
  | [] => none
  | c1 :: rest =>
    if c1 = '3' then
      match rest with
      | c2 :: r2 =>
        if c2 = '0' then some (30, r2)
        else if c2 = '1' then some (31, r2)
        else some (3, rest)
      | [] => some (3, [])
    else if c1 = '1' || c1 = '2' then
      match rest with
      | c2 :: r2 =>
        if c2.isDigit then some ((c1.toNat - 48) * 10 + (c2.toNat - 48), r2)
        else some (c1.toNat - 48, rest)
      | [] => some (c1.toNat - 48, [])
    else if c1 = '0' then
      match rest with
      | c2 :: r2 => if '1' ≤ c2 && c2 ≤ '9' then some (c2.toNat - 48, r2) else none
      | [] => none
    else if '1' ≤ c1 && c1 ≤ '9' then some (c1.toNat - 48, rest)
    else none

/-- Directive `%m` of `datetime.strptime`: regex `1[0-2]|0[1-9]|[1-9]`. -/
def scanMonthNum : Chars → Option (Nat × Chars)
  | [] => none
  | c1 :: rest =>
    if c1 = '1' then
      match rest with
      | c2 :: r2 =>
        if c2 = '0' || c2 = '1' || c2 = '2' then some (10 + (c2.toNat - 48), r2)
        else some (1, rest)
      | [] => some (1, [])
    else if c1 = '0' then
      match rest with
      | c2 :: r2 => if '1' ≤ c2 && c2 ≤ '9' then some (c2.toNat - 48, r2) else none
      | [] => none
    else if '2' ≤ c1 && c1 ≤ '9' then some (c1.toNat - 48, rest)
    else none

/-- Directive `%Y` of `datetime.strptime`: exactly four digits. -/
def scanYear4 : Chars → Option (Nat × Chars)
  | a :: b :: c :: d :: rest =>
    if a.isDigit && b.isDigit && c.isDigit && d.isDigit then
      some (digitsToNat [a, b, c, d], rest)
    else none
  | _ => none

def monthFullNames : List (Chars × Nat) :=
  [(lit "january", 1), (lit "february", 2), (lit "march", 3), (lit "april", 4),
   (lit "may", 5), (lit "june", 6), (lit "july", 7), (lit "august", 8),
   (lit "september", 9), (lit "october", 10), (lit "november", 11),
   (lit "december", 12)]

def monthAbbrNames : List (Chars × Nat) :=
  [(lit "jan", 1), (lit "feb", 2), (lit "mar", 3), (lit "apr", 4),
   (lit "may", 5), (lit "jun", 6), (lit "jul", 7), (lit "aug", 8),
   (lit "sep", 9), (lit "oct", 10), (lit "nov", 11), (lit "dec", 12)]

/-- Month-name directives `%B` / `%b` (inputs are already lower-case). -/
def scanName (names : List (Chars × Nat)) (s : Chars) : Option (Nat × Chars) :=
  match names.find? (fun p => startsList p.1 s) with
  | some p => some (p.2, s.drop p.1.length)
  | none => none

/-- Tokens of the `strptime` format strings used by `parse_date_str`. -/
inductive FTok
  | d | m | Y | B | b | ws | chr (c : Char)

/-- Partially parsed date; `strptime` defaults are year 1900, month 1, day 1. -/
structure PDate where
  year : Nat
  month : Nat
  day : Nat
deriving DecidableEq

/-- Run a format against the whole input (`strptime` fails when unconverted
    data remains; whitespace in a format matches a nonempty whitespace run). -/
def runToks : List FTok → Chars → PDate → Option PDate
  | [], [], pd => some pd
  | [], _ :: _, _ => none
  | FTok.d :: ts, s, pd =>
    match scanDay s with
    | some (v, r) => runToks ts r { pd with day := v }
    | none => none
  | FTok.m :: ts, s, pd =>
    match scanMonthNum s with
    | some (v, r) => runToks ts r { pd with month := v }
    | none => none
  | FTok.Y :: ts, s, pd =>
    match scanYear4 s with
    | some (v, r) => runToks ts r { pd with year := v }
    | none => none
  | FTok.B :: ts, s, pd =>
    match scanName monthFullNames s with
    | some (v, r) => runToks ts r { pd with month := v }
    | none => none
  | FTok.b :: ts, s, pd =>
    match scanName monthAbbrNames s with
    | some (v, r) => runToks ts r { pd with month := v }
    | none => none
  | FTok.ws :: ts, s, pd =>
    let k := (s.takeWhile pyIsSpace).length
    if k = 0 then none else runToks ts (s.drop k) pd
  | FTok.chr c :: ts, s, pd =>
    match s with
    | x :: r => if x == c then runToks ts r pd else none
    | [] => none

/-- The format list of `parse_date_str`, in source order. -/
def fmtTokens : List (List FTok) :=
  [[FTok.d, FTok.chr '-', FTok.m, FTok.chr '-', FTok.Y],
   [FTok.d, FTok.chr '/', FTok.m, FTok.chr '/', FTok.Y],
   [FTok.Y, FTok.chr '-', FTok.m, FTok.chr '-', FTok.d],
   [FTok.d, FTok.ws, FTok.B],
   [FTok.d, FTok.chr 't', FTok.chr 'h', FTok.ws, FTok.B],
   [FTok.d, FTok.chr 's', FTok.chr 't', FTok.ws, FTok.B],
   [FTok.d, FTok.chr 'n', FTok.chr 'd', FTok.ws, FTok.B],
   [FTok.d, FTok.chr 'r', FTok.chr 'd', FTok.ws, FTok.B],
   [FTok.d, FTok.ws, FTok.b],
   [FTok.d, FTok.chr 't', FTok.chr 'h', FTok.ws, FTok.b],
   [FTok.d, FTok.chr 's', FTok.chr 't', FTok.ws, FTok.b],
   [FTok.d, FTok.chr 'n', FTok.chr 'd', FTok.ws, FTok.b],
   [FTok.d, FTok.chr 'r', FTok.chr 'd', FTok.ws, FTok.b],
   [FTok.B, FTok.ws, FTok.d],
   [FTok.b, FTok.ws, FTok.d]]

def isLeap (y : Nat) : Bool := y % 4 = 0 && (y % 100 ≠ 0 || y % 400 = 0)

def daysInMonth (y m : Nat) : Nat :=
  if m = 2 then (if isLeap y then 29 else 28)
  else if m = 4 || m = 6 || m = 9 || m = 11 then 30
  else 31

/-- Calendar validation performed by the `datetime` constructor
    (`MINYEAR = 1 ≤ year ≤ MAXYEAR = 9999`, month and day ranges); a
    violation raises `ValueError`, caught by the format loop. -/
def validPD (pd : PDate) : Bool :=
  1 ≤ pd.year && pd.year ≤ 9999 && 1 ≤ pd.month && pd.month ≤ 12 &&
    1 ≤ pd.day && pd.day ≤ daysInMonth pd.year pd.month

def tryFormats (fmts : List (List FTok)) (s : Chars) : Option PDate :=
  match fmts with
  | [] => none
  | f :: fs =>
    match runToks f s ⟨1900, 1, 1⟩ with
    | some pd => if validPD pd then some pd else tryFormats fs s
    | none => tryFormats fs s

/-- Directive letters of a format, in order: `strptime` compiles every
    directive `%x` into a named regex group `(?P<x>...)`. -/
def fmtDirectives : List FTok → List Char
  | [] => []
  | FTok.d :: ts => 'd' :: fmtDirectives ts
  | FTok.m :: ts => 'm' :: fmtDirectives ts
  | FTok.Y :: ts => 'Y' :: fmtDirectives ts
  | FTok.B :: ts => 'B' :: fmtDirectives ts
  | FTok.b :: ts => 'b' :: fmtDirectives ts
  | FTok.ws :: ts => fmtDirectives ts
  | FTok.chr _ :: ts => fmtDirectives ts

def hasDupChar : List Char → Bool
  | [] => false
  | c :: cs => cs.contains c || hasDupChar cs

/-- The append-year retry loop of `parse_date_str`.  A format with a
    repeated directive makes the compiled regex redefine a named group, so
    `strptime` raises `re.error` — not a `ValueError` — which escapes the
    loop's inner `except ValueError` and hits the outer bare `except`,
    aborting the whole retry.  The first retry format, `'%d-%m-%Y %Y'`,
    repeats `%Y`, so the retry aborts on its first iteration and never
    parses anything. -/
def tryFormatsRetry (fmts : List (List FTok)) (s : Chars) : Option PDate :=
  match fmts with
  | [] => none
  | f :: fs =>
    if hasDupChar (fmtDirectives f) then none
    else
      match runToks f s ⟨1900, 1, 1⟩ with
      | some pd => if validPD pd then some pd else tryFormatsRetry fs s
      | none => tryFormatsRetry fs s

/-- Python `datetime.strftime('%Y-%m-%d')`. -/
def strftimeYMD (pd : PDate) : Chars :=
  padZero 4 (natChars pd.year) ++ '-' ::
    (padZero 2 (natChars pd.month) ++ '-' :: padZero 2 (natChars pd.day))

/-- Inner helper `parse_date_str` of `get_date_filter`.  A parsed year of
    1900 (the `strptime` default for formats without a year) is replaced by
    the system-local current year, modelled by `sysYear`.  The second,
    append-year block runs `tryFormatsRetry`, whose `re.error` abort makes
    it return `None` on every input. -/
def parse_date_str (sysYear : Nat) (dateStr : Chars) : Option Chars :=
  let clean := ordClean dateStr
  match tryFormats fmtTokens clean with
  | some pd =>
    let pd' := if pd.year = 1900 then { pd with year := sysYear } else pd
    some (strftimeYMD pd')
  | none =>
    let cleanY := clean ++ ' ' :: natChars sysYear
    match tryFormatsRetry (fmtTokens.map (fun f => f ++ [FTok.ws, FTok.Y])) cleanY with
    | some pd => some (strftimeYMD pd)
    | none => none

/-- Leftmost occurrence of `week\s+(\d+)`, returning the digit group. -/
def weekAt (t : Chars) : Option Chars :=
  if startsList (lit "week") t then
    let r := t.drop 4
    let w := (r.takeWhile pyIsSpace).length
    if w = 0 then none
    else
      let ds := (r.drop w).takeWhile Char.isDigit
      if ds.isEmpty then none else some ds
  else none

def searchWeek : Chars → Option Chars
  | [] => none
  | c :: cs =>
    match weekAt (c :: cs) with
    | some ds => some ds
    | none => searchWeek cs

/-- The weekday dictionary of `get_date_filter`, in insertion order. -/
def vannaDays : List (Chars × Chars) :=
  [(lit "sunday", lit "0"), (lit "sun", lit "0"),
   (lit "monday", lit "1"), (lit "mon", lit "1"),
   (lit "tuesday", lit "2"), (lit "tue", lit "2"),
   (lit "wednesday", lit "3"), (lit "wed", lit "3"),
   (lit "thursday", lit "4"), (lit "thu", lit "4"),
   (lit "friday", lit "5"), (lit "fri", lit "5"),
   (lit "saturday", lit "6"), (lit "sat", lit "6")]

/-- Weekday rule: `f" {day_name} " in f" {q} "` for each day in order. -/
def weekdayLookup (q : Chars) : Option Chars :=
  match vannaDays.find? (fun p => containsSub (' ' :: (p.1 ++ [' '])) (' ' :: (q ++ [' ']))) with
  | some p => some p.2
  | none => none

/-- The month dictionary of `get_date_filter`, in insertion order. -/
def vannaMonths : List (Chars × Chars) :=
  [(lit "january", lit "01"), (lit "jan", lit "01"),
   (lit "february", lit "02"), (lit "feb", lit "02"),
   (lit "march", lit "03"), (lit "mar", lit "03"),
   (lit "april", lit "04"), (lit "apr", lit "04"),
   (lit "may", lit "05"),
   (lit "june", lit "06"), (lit "jun", lit "06"),
   (lit "july", lit "07"), (lit "jul", lit "07"),
   (lit "august", lit "08"), (lit "aug", lit "08"),
   (lit "september", lit "09"), (lit "sep", lit "09"),
   (lit "october", lit "10"), (lit "oct", lit "10"),
   (lit "november", lit "11"), (lit "nov", lit "11"),
   (lit "december", lit "12"), (lit "dec", lit "12")]

/-- Month rule: padded containment, `q.endswith(name)` or
    `q.startswith(name + ' ')` for each month in order. -/
def monthLookup (q : Chars) : Option Chars :=
  match vannaMonths.find? (fun p =>
      containsSub (' ' :: (p.1 ++ [' '])) (' ' :: (q ++ [' '])) ||
      endsList p.1 q || startsList (p.1 ++ [' ']) q) with
  | some p => some p.2
  | none => none

/-- Word-boundary match of `\b(20\d{2})\b` at the head of the suffix. -/
def yearAt : Chars → Option Chars
  | '2' :: '0' :: c :: d :: rest =>
    if c.isDigit && d.isDigit &&
        (match rest with | [] => true | e :: _ => !isWordChar e) then
      some ['2', '0', c, d]
    else none
  | _ => none

def searchYearAux : Bool → Chars → Option Chars
  | _, [] => none
  | prevWord, c :: cs =>
    match (if !prevWord then yearAt (c :: cs) else none) with
    | some y => some y
    | none => searchYearAux (isWordChar c) cs

/-- Python `re.search(r'\b(20\d{2})\b', q)`, returning the matched group. -/
def searchYear (q : Chars) : Option Chars := searchYearAux false q

/-- Unit alternative `(year|month|week|day)` of the relative-range regex. -/
def relUnitAt (t : Chars) : Option Chars :=
  if startsList (lit "year") t then some (lit "year")
  else if startsList (lit "month") t then some (lit "month")
  else if startsList (lit "week") t then some (lit "week")
  else if startsList (lit "day") t then some (lit "day")
  else none

/-- Continuation `\s*(\d+)?\s*(year|month|week|day)s?` after an optional
    prefix alternative (the character classes are disjoint, so the greedy
    quantifiers here are deterministic). -/
def relAfterPre (t : Chars) : Option (Option Chars × Chars) :=
  let t1 := t.drop (t.takeWhile pyIsSpace).length
  let ds := t1.takeWhile Char.isDigit
  let t2 := t1.drop ds.length
  let t3 := t2.drop (t2.takeWhile pyIsSpace).length
  match relUnitAt t3 with
  | some u => some ((if ds.isEmpty then none else some ds), u)
  | none => none

/-- Prefix alternatives of `(?:last|past|in the last|in the past|this|next)?`
    in source order, ending with the empty alternative. -/
def relPrefixes : List Chars :=
  [lit "last", lit "past", lit "in the last", lit "in the past",
   lit "this", lit "next", []]

def relTryPre : List Chars → Chars → Option (Option Chars × Chars)
  | [], _ => none
  | p :: ps, t =>
    if startsList p t then
      match relAfterPre (t.drop p.length) with
      | some r => some r
      | none => relTryPre ps t
    else relTryPre ps t

/-- Python
    `re.search(r'(?:last|past|in the last|in the past|this|next)?\s*(\d+)?\s*(year|month|week|day)s?', q)`:
    leftmost match, returning the digit group (if any) and the unit group. -/
def relSearch : Chars → Option (Option Chars × Chars)
  | [] => none
  | c :: cs =>
    match relTryPre relPrefixes (c :: cs) with
    | some r => some r
    | none => relSearch cs

/-- Predicate construction of the relative-range rule (rule 3 of
    `get_date_filter`), given the two regex groups. -/
def relPredicate (q col : Chars) (amountOpt : Option Chars) (unit : Chars) : Chars :=
  let isComplete := containsSub (lit "complete") q
  let isCurrent := containsWord (lit "THIS") q || containsWord (lit "CURRENT") q
  let isLast := containsWord (lit "LAST") q || containsWord (lit "PAST") q ||
    containsWord (lit "PREVIOUS") q
  if amountOpt.isNone && (unit == lit "month" || unit == lit "week") then
    if unit == lit "month" then
      if isLast then
        lit "strftime('%Y-%m', " ++ col ++
          lit ") = strftime('%Y-%m', 'now', '+5 hours', '30 minutes', '-1 month')"
      else
        lit "strftime('%Y-%m', " ++ col ++
          lit ") = strftime('%Y-%m', 'now', '+5 hours', '30 minutes')"
    else
      if isLast then
        lit "DATE(" ++ col ++
          lit ") >= date('now', '+5 hours', '30 minutes', 'weekday 0', '-14 days') AND DATE(" ++
          col ++ lit ") < date('now', '+5 hours', '30 minutes', 'weekday 0', '-7 days')"
      else
        lit "DATE(" ++ col ++
          lit ") >= date('now', '+5 hours', '30 minutes', 'weekday 0', '-7 days')"
  else
    let amount : Int := (digitsToNat ((amountOpt.getD (lit "1"))) : Nat)
    if isComplete then
      if unit == lit "month" then
        lit "DATE(" ++ col ++ lit ") >= date('now', 'start of month', '-" ++
          intChars amount ++
          lit " months', '+5 hours', '30 minutes') AND DATE(" ++ col ++
          lit ") < date('now', 'start of month', '+5 hours', '30 minutes')"
      else if unit == lit "week" then
        lit "DATE(" ++ col ++
          lit ") >= date('now', '+5 hours', '30 minutes', 'weekday 0', '-" ++
          intChars (7 * (amount + 1)) ++
          lit " days') AND DATE(" ++ col ++
          lit ") < date('now', '+5 hours', '30 minutes', 'weekday 0', '-7 days')"
      else
        lit "DATE(" ++ col ++ lit ") >= DATE('now', '-" ++ intChars (amount + 1) ++
          lit " " ++ unit ++ lit "s', '+5 hours', '30 minutes') AND DATE(" ++ col ++
          lit ") < DATE('now', '-1 " ++ unit ++ lit "s', '+5 hours', '30 minutes')"
    else
      if unit == lit "month" then
        lit "DATE(" ++ col ++ lit ") >= date('now', 'start of month', '-" ++
          intChars (amount - 1) ++ lit " months', '+5 hours', '30 minutes')"
      else if unit == lit "week" then
        lit "DATE(" ++ col ++
          lit ") >= date('now', '+5 hours', '30 minutes', 'weekday 0', '-" ++
          intChars (amount * 7) ++ lit " days')"
      else
        lit "DATE(" ++ col ++ lit ") >= DATE('now', '-" ++ intChars amount ++
          lit " " ++ unit ++ lit "s', '+5 hours', '30 minutes')"

/-- Rule 3 of `get_date_filter` (including the never-firing re-check of the
    match groups that the source performs). -/
def relApply (q col : Chars) : Option Chars :=
  match relSearch q with
  | none => none
  | some (amountOpt, unit) =>
    if amountOpt.isNone && unit.isEmpty then none
    else some (relPredicate q col amountOpt unit)

/-- Rule 7 of `get_date_filter`: fixed substring shortcuts. -/
def dateShortcuts (q col : Chars) : Chars :=
  if containsSub (lit "today") q then
    lit "date(" ++ col ++ lit ") = date('now', '+5 hours', '30 minutes')"
  else if containsSub (lit "yesterday") q then
    lit "date(" ++ col ++ lit ") = date('now', '-1 day', '+5 hours', '30 minutes')"
  else if containsSub (lit "this week") q then
    col ++ lit " >= date('now', 'weekday 0', '-7 days', '+5 hours', '30 minutes')"
  else if containsSub (lit "last week") q then
    col ++ lit " >= date('now', 'weekday 0', '-14 days', '+5 hours', '30 minutes') AND " ++
      col ++ lit " < date('now', 'weekday 0', '-7 days', '+5 hours', '30 minutes')"
  else if containsSub (lit "this month") q || containsSub (lit "current month") q then
    lit "strftime('%Y-%m', " ++ col ++ lit ") = strftime('%Y-%m', 'now', '+5 hours', '30 minutes')"
  else if containsSub (lit "last month") q then
    lit "strftime('%Y-%m', " ++ col ++
      lit ") = strftime('%Y-%m', 'now', '-1 month', '+5 hours', '30 minutes')"
  else if containsSub (lit "this year") q then
    lit "strftime('%Y', " ++ col ++ lit ") = strftime('%Y', 'now', '+5 hours', '30 minutes')"
  else if containsSub (lit "last year") q then
    lit "strftime('%Y', " ++ col ++ lit ") = strftime('%Y', 'now', '-1 year', '+5 hours', '30 minutes')"
  else []

/-- Rules 2–7 of `get_date_filter` (everything after the explicit-range
    rule), on the already lower-cased question. -/
def dfRest (q col : Chars) : Chars :=
  match searchWeek q with
  | some ds =>
    lit "strftime('%W', " ++ col ++ lit ") = '" ++
      padZero 2 (natChars (digitsToNat ds)) ++ lit "'"
  | none =>
    match weekdayLookup q with
    | some d => lit "strftime('%w', " ++ col ++ lit ") = '" ++ d ++ lit "'"
    | none =>
      match relApply q col with
      | some r => r
      | none =>
        match monthLookup q with
        | some m => lit "strftime('%m', " ++ col ++ lit ") = '" ++ m ++ lit "'"
        | none =>
          match searchYear q with
          | some y => lit "strftime('%Y', " ++ col ++ lit ") = '" ++ y ++ lit "'"
          | none =>
            match weekdayLookup q with
            | some d => lit "strftime('%w', " ++ col ++ lit ") = '" ++ d ++ lit "'"
            | none => dateShortcuts q col

/-- `VannaAI.get_date_filter`.  `sysYear` models `datetime.now().year`, the
    system-local current year. -/
def get_date_filter (sysYear : Nat) (question col : Chars) : Chars :=
  let q := lowerChars question
  match searchFromTo q with
  | some g =>
    match parse_date_str sysYear (stripChars g.1), parse_date_str sysYear (stripChars g.2) with
    | some sd, some ed =>
      lit "DATE(" ++ col ++ lit ") BETWEEN DATE('" ++ sd ++ lit "') AND DATE('" ++ ed ++ lit "')"
    | some _, none => dfRest q col
    | none, _ => dfRest q col
  | none => dfRest q col

/-!
`core/vanna_setup.py` — `VannaAI.generate_sql`.  The router prefix (the
conversational short-circuits, the stock-alert templates, and the
purchase-query bypass to the LLM) is embedded exactly; each branch is
tagged with the `return` it corresponds to.  The LLM collaborator is the
parameter `llm` (question to raw completion), the identity payload built
from the settings database is the parameter `identityJson`, and the
remaining, later branches of the function (credit, customer, revenue,
supplier, top-sold, product templates and the default LLM path), which no
routing decision proved here ever reaches, are the parameter `rest`.
-/

def greeting_patterns : List Chars :=
  [lit "hi", lit "hello", lit "hey", lit "good morning", lit "good afternoon",
   lit "good evening", lit "howdy", lit "hola"]

def identity_patterns : List Chars :=
  [lit "who are you", lit "what are you", lit "who is this", lit "what is this",
   lit "introduce yourself", lit "tell me about yourself"]

def farewell_patterns : List Chars :=
  [lit "thank you", lit "thanks", lit "bye", lit "goodbye", lit "see you",
   lit "take care"]

def help_patterns : List Chars :=
  [lit "help", lit "what can you do", lit "how to use", lit "commands",
   lit "features"]

/-- Punctuation cleanup `re.sub(r'[!?.,]', '', question_lower).strip()`. -/
def q_clean_of (ql : Chars) : Chars :=
  stripChars (ql.filter (fun c => !(c = '!' || c = '?' || c = '.' || c = ',')))

def isGreeting (qc : Chars) : Bool :=
  greeting_patterns.any (fun g => qc == g) ||
    greeting_patterns.any (fun g => startsList (g ++ [' ']) qc)

def isIdentityQ (qc : Chars) : Bool :=
  identity_patterns.any (fun p => containsSub p qc)

def isFarewell (ql : Chars) : Bool :=
  farewell_patterns.any (fun p => containsSub p ql)

def isHelp (qc : Chars) : Bool :=
  help_patterns.any (fun p => containsSub p qc) && qc.length < 50

def greetingReply : Chars :=
  lit "CONVERSATIONAL:Hello! How can I help you today? You can ask me about products, customers, suppliers, invoices, or sales analytics."

def farewellReply : Chars :=
  lit "CONVERSATIONAL:You're welcome! Feel free to ask if you need anything else. Have a great day!"

def helpReply : Chars :=
  lit "CONVERSATIONAL:I can help you with:\n• **Products**: Stock levels, prices, top sellers, product details\n• **Customers**: Customer info, purchase history, credit balances\n• **Suppliers**: Supplier details, pending payments\n• **Sales**: Revenue, invoices, payment methods, trends\n• **Analytics**: Top products, customer spending, sales reports\n\nJust ask naturally, like \"Show top 5 sold products\" or \"Customer John details\"!"

def lowStockB (ql : Chars) : Bool :=
  containsSub (lit "low stock") ql || containsSub (lit "running low") ql

def outOfStockB (ql : Chars) : Bool :=
  containsSub (lit "out of stock") ql || containsSub (lit "no stock") ql ||
    containsSub (lit "zero stock") ql

def lowStockSQL : Chars :=
  lit "SELECT p.name AS \"PRODUCT NAME\", p.sku AS \"SKU\", p.stock_quantity AS \"CURRENT STOCK\", \n                p.price AS \"COST PRICE\", s.name AS \"SUPPLIER\"\n                FROM products p \n                LEFT JOIN suppliers s ON p.supplier_id = s.id \n                WHERE p.stock_quantity < 10 \n                ORDER BY p.stock_quantity ASC"

def outOfStockSQL : Chars :=
  lit "SELECT p.name AS \"PRODUCT NAME\", p.sku AS \"SKU\", p.stock_quantity AS \"CURRENT STOCK\", \n                p.price AS \"COST PRICE\", s.name AS \"SUPPLIER\"\n                FROM products p \n                LEFT JOIN suppliers s ON p.supplier_id = s.id \n                WHERE p.stock_quantity = 0 \n                ORDER BY p.name ASC"

def soldToCustomerB (ql : Chars) : Bool := containsSub (lit "sold to customer") ql

/-- The `is_purchase_query` predicate of `generate_sql`. -/
def purchaseB (ql : Chars) : Bool :=
  !soldToCustomerB ql &&
    (containsSub (lit "bought") ql ||
     containsSub (lit "sales with") ql ||
     containsSub (lit "customers for") ql ||
     containsSub (lit "who purchased") ql ||
     containsSub (lit "by customers") ql ||
     (containsSub (lit "kisses") ql && containsSub (lit "customer") ql) ||
     (containsSub (lit "product") ql && containsSub (lit "customer") ql &&
       !containsSub (lit "sold") ql))

/-- Cleanup applied to the raw LLM output on the purchase-query early
    return (strip, code-fence extraction, `sql:` label removal). -/
def purchaseCleanup (raw : Chars) : Chars :=
  let sql := stripChars raw
  let sql :=
    if containsSub (lit "```") sql then
      let parts := splitOnList (lit "```") sql
      if parts.length > 1 then
        let s := (parts.drop 1).headD []
        let s := if startsList (lit "sql") (lowerChars s) then s.drop 3 else s
        stripChars s
      else sql
    else sql
  if startsList (lit "sql:") (lowerChars sql) then stripChars (sql.drop 4) else sql

/-- Tag naming the `return` statement of `generate_sql` that produced the
    result. -/
inductive RouteTag
  | greeting
  | identityInfo
  | farewell
  | helpInfo
  | lowStock
  | outOfStock
  | llmPurchase
  | laterRules
deriving DecidableEq

/-- `VannaAI.generate_sql`, embedded down to (and including) the
    purchase-query bypass; `rest` is the remainder of the function. -/
def generate_sql (llm rest : Chars → Chars) (identityJson : Chars)
    (question : Chars) : RouteTag × Chars :=
  let ql := questionLower question
  let qc := q_clean_of ql
  if isGreeting qc then (RouteTag.greeting, greetingReply)
  else if isIdentityQ qc then (RouteTag.identityInfo, lit "IDENTITY:" ++ identityJson)
  else if isFarewell ql then (RouteTag.farewell, farewellReply)
  else if isHelp qc then (RouteTag.helpInfo, helpReply)
  else if lowStockB ql then (RouteTag.lowStock, lowStockSQL)
  else if outOfStockB ql then (RouteTag.outOfStock, outOfStockSQL)
  else if purchaseB ql then (RouteTag.llmPurchase, purchaseCleanup (llm question))
  else (RouteTag.laterRules, rest question)

/-!
`main.py` — the `/query` endpoint.  The cache, the generated SQL and the
database outcome are explicit; `gen` is the result of
`vanna_ai.generate_sql` (or `err` when it raises) and `dbOk` tells whether
SQLite accepts a statement that passed validation.
-/

inductive GenOutcome
  | ok (sql : Chars)
  | err
deriving DecidableEq

inductive RespKind
  | genFailed
  | conversational
  | identityResp
  | success
  | execFailed
deriving DecidableEq

structure QueryOutcome where
  cache : List (Chars × Chars)
  executorCalled : Bool
  kind : RespKind
  sqlOut : Chars
deriving DecidableEq

/-- Python truthiness of `cached_sql` (`None` and the empty string are
    falsy). -/
def truthyOpt : Option Chars → Bool
  | none => false
  | some s => !s.isEmpty

/-- The `/query` handler of `main.py`: cache lookup, generation, the
    conversational/identity short-circuits, execution, and the guarded
    cache write-back. -/
def queryStep (cache : List (Chars × Chars)) (question : Chars)
    (gen : GenOutcome) (dbOk : Chars → Bool) : QueryOutcome :=
  let cachedSql := cacheGet cache question
  let hit := truthyOpt cachedSql
  let sqlRes : Option Chars :=
    if hit then some (cachedSql.getD [])
    else
      match gen with
      | GenOutcome.ok s => some s
      | GenOutcome.err => none
  match sqlRes with
  | none => ⟨cache, false, RespKind.genFailed, []⟩
  | some sql =>
    if startsList (lit "CONVERSATIONAL:") sql then
      ⟨cache, false, RespKind.conversational, []⟩
    else if startsList (lit "IDENTITY:") sql then
      ⟨cache, false, RespKind.identityResp, []⟩
    else if is_safe_query sql && dbOk sql then
      let cache' :=
        if !hit && !startsList (lit "CONVERSATIONAL:") sql &&
            !containsSub (lit "[DATE_CONDITION]") sql then
          cacheSet question sql cache
        else cache
      ⟨cache', true, RespKind.success, sql⟩
    else ⟨cache, true, RespKind.execFailed, sql⟩

/-!
Helper lemmas shared by the claim theorems.
-/

theorem startsList_trans {a b c : Chars} (h1 : startsList a b = true)
    (h2 : startsList b c = true) : startsList a c = true := by
  induction a generalizing b c with
  | nil => simp [startsList]
  | cons x xs ih =>
    cases b with
    | nil => simp [startsList] at h1
    | cons y ys =>
      cases c with
      | nil => simp [startsList] at h2
      | cons z zs =>
        simp only [startsList, Bool.and_eq_true, beq_iff_eq] at h1 h2 ⊢
        exact ⟨h1.1.trans h2.1, ih h1.2 h2.2⟩

theorem containsSub_of_startsList {p q : Chars} (hpq : startsList p q = true) :
    ∀ {s : Chars}, containsSub q s = true → containsSub p s = true := by
  intro s
  induction s with
  | nil =>
    intro h
    simp only [containsSub] at h ⊢
    exact startsList_trans hpq h
  | cons c cs ih =>
    intro h
    simp only [containsSub, Bool.or_eq_true] at h ⊢
    rcases h with h | h
    · exact Or.inl (startsList_trans hpq h)
    · exact Or.inr (ih h)

theorem dropWhile_append_all {p : Char → Bool} {l1 : Chars} (l2 : Chars)
    (h : ∀ c ∈ l1, p c = true) : (l1 ++ l2).dropWhile p = l2.dropWhile p := by
  induction l1 with
  | nil => simp
  | cons c cs ih =>
    simp only [List.cons_append, List.dropWhile]
    rw [h c (by simp)]
    exact ih (fun x hx => h x (by simp [hx]))

theorem dropWhile_append_rest {p : Char → Bool} {l1 : Chars} (l2 : Chars)
    (h : l1.dropWhile p ≠ []) : (l1 ++ l2).dropWhile p = l1.dropWhile p ++ l2 := by
  induction l1 with
  | nil => simp [List.dropWhile] at h
  | cons c cs ih =>
    simp only [List.cons_append, List.dropWhile]
    cases hc : p c with
    | true =>
      simp only [List.dropWhile, hc] at h
      exact ih h
    | false => simp

theorem stripChars_sandwich {w1 w2 : Chars} (s : Chars)
    (h1 : ∀ c ∈ w1, pyIsSpace c = true) (h2 : ∀ c ∈ w2, pyIsSpace c = true) :
    stripChars (w1 ++ s ++ w2) = stripChars s := by
  unfold stripChars
  rw [List.append_assoc, dropWhile_append_all (s ++ w2) h1]
  by_cases hs : s.dropWhile pyIsSpace = []
  · rw [List.dropWhile_eq_nil_iff] at hs
    rw [dropWhile_append_all w2 hs, List.dropWhile_eq_nil_iff.mpr h2,
        List.dropWhile_eq_nil_iff.mpr hs]
  · rw [dropWhile_append_rest w2 hs, List.reverse_append,
        dropWhile_append_all _ (fun c hc => h2 c (List.mem_reverse.mp hc))]

theorem char_eq_iff_toNat {c k : Char} : c = k ↔ c.toNat = k.toNat := by
  constructor
  · intro h; rw [h]
  · intro h
    exact Char.ext (UInt32.eq_of_toBitVec_eq (BitVec.eq_of_toNat_eq h))

theorem pyIsSpace_iff (c : Char) :
    pyIsSpace c = true ↔ (c.toNat = 32 ∨ c.toNat = 9 ∨ c.toNat = 10 ∨
      c.toNat = 13 ∨ c.toNat = 11 ∨ c.toNat = 12) := by
  simp only [pyIsSpace, Bool.or_eq_true, decide_eq_true_eq]
  rw [@char_eq_iff_toNat c ' ', @char_eq_iff_toNat c '\t', @char_eq_iff_toNat c '\n',
      @char_eq_iff_toNat c '\r', @char_eq_iff_toNat c '\x0b', @char_eq_iff_toNat c '\x0c']
  rw [show ' '.toNat = 32 from rfl, show '\t'.toNat = 9 from rfl,
      show '\n'.toNat = 10 from rfl, show '\r'.toNat = 13 from rfl,
      show '\x0b'.toNat = 11 from rfl, show '\x0c'.toNat = 12 from rfl]
  tauto

theorem pyIsSpace_toLower (c : Char) : pyIsSpace (Char.toLower c) = pyIsSpace c := by
  rw [Char.toLower]
  by_cases h : c.toNat ≥ 65 ∧ c.toNat ≤ 90
  · rw [if_pos h]
    have hval : (Char.ofNat (c.toNat + 32)).toNat = c.toNat + 32 := by
      rw [Char.ofNat, dif_pos (Or.inl (by omega : c.toNat + 32 < 55296))]
      rfl
    rw [Bool.eq_iff_iff, pyIsSpace_iff, pyIsSpace_iff, hval]
    have h65 := h.1
    constructor <;> intro hx <;> omega
  · rw [if_neg h]

theorem dropWhile_lower (l : Chars) :
    (lowerChars l).dropWhile pyIsSpace = lowerChars (l.dropWhile pyIsSpace) := by
  induction l with
  | nil => simp [lowerChars]
  | cons c cs ih =>
    simp only [lowerChars, List.map_cons, List.dropWhile, pyIsSpace_toLower c]
    cases hc : pyIsSpace c with
    | true => simpa [lowerChars] using ih
    | false => simp [lowerChars]

theorem stripChars_lower (l : Chars) :
    stripChars (lowerChars l) = lowerChars (stripChars l) := by
  unfold stripChars
  rw [dropWhile_lower]
  rw [show (lowerChars (l.dropWhile pyIsSpace)).reverse
        = lowerChars (l.dropWhile pyIsSpace).reverse from (List.map_reverse _ _).symm]
  rw [dropWhile_lower]
  exact (List.map_reverse _ _).symm

theorem mem_setAssoc {k v : Chars} {m : List (Chars × Chars)} {kv : Chars × Chars}
    (h : kv ∈ setAssoc k v m) : kv.2 = v ∨ kv ∈ m := by
  induction m with
  | nil =>
    simp only [setAssoc, List.mem_singleton] at h
    exact Or.inl (by rw [h])
  | cons kv0 rest ih =>
    cases hk : (kv0.1 == k) with
    | true =>
      simp only [setAssoc, hk, if_true, List.mem_cons] at h
      rcases h with h | h
      · exact Or.inl (by rw [h])
      · exact Or.inr (List.mem_cons_of_mem _ h)
    | false =>
      simp only [setAssoc, hk, Bool.false_eq_true, if_false, List.mem_cons] at h
      rcases h with h | h
      · exact Or.inr (by rw [h]; exact List.mem_cons_self _ _)
      · rcases ih h with h' | h'
        · exact Or.inl h'
        · exact Or.inr (List.mem_cons_of_mem _ h')

theorem queryStep_cache_spec (cache : List (Chars × Chars)) (question : Chars)
    (gen : GenOutcome) (dbOk : Chars → Bool) :
    (queryStep cache question gen dbOk).cache = cache ∨
      ∃ s, gen = GenOutcome.ok s ∧ truthyOpt (cacheGet cache question) = false ∧
        is_safe_query s = true ∧ dbOk s = true ∧
        startsList (lit "CONVERSATIONAL:") s = false ∧
        startsList (lit "IDENTITY:") s = false ∧
        containsSub (lit "[DATE_CONDITION]") s = false ∧
        (queryStep cache question gen dbOk).kind = RespKind.success ∧
        (queryStep cache question gen dbOk).cache = cacheSet question s cache := by
  cases hhit : truthyOpt (cacheGet cache question) with
  | true =>
    left
    simp only [queryStep, hhit, if_true, Bool.not_true, Bool.false_and, Bool.and_self]
    split
    · rfl
    · split_ifs <;> first | rfl | contradiction
  | false =>
    cases gen with
    | err =>
      left
      simp [queryStep, hhit]
    | ok s =>
      by_cases hconv : startsList (lit "CONVERSATIONAL:") s = true
      · left; simp [queryStep, hhit, hconv]
      · by_cases hident : startsList (lit "IDENTITY:") s = true
        · left; simp [queryStep, hhit, hconv, hident]
        · by_cases hexec : (is_safe_query s && dbOk s) = true
          · by_cases hph : containsSub (lit "[DATE_CONDITION]") s = true
            · left
              simp [queryStep, hhit, hconv, hident, hexec, hph]
            · right
              have hand := hexec
              rw [Bool.and_eq_true] at hand
              refine ⟨s, rfl, rfl, hand.1, hand.2,
                Bool.not_eq_true _ ▸ hconv, Bool.not_eq_true _ ▸ hident,
                Bool.not_eq_true _ ▸ hph, ?_, ?_⟩ <;>
                simp [queryStep, hhit, hconv, hident, hexec, hph]
          · left
            simp [queryStep, hhit, hconv, hident, hexec]

/-!
Claim theorems.
-/

/-- C1: any statement containing a blocklisted mutating keyword as a whole
    word is rejected by `_is_safe_query` (even when it starts with SELECT),
    and a statement in which the keywords occur at most as substrings of
    longer identifiers is never rejected on that account: if it is
    non-blank, starts (trimmed, case-folded) with SELECT or WITH and has no
    whole-word blocklisted keyword, validation accepts it. -/
theorem C1_blocklist_word_boundary :
    (∀ sql : Chars, containsBlocked sql = true → is_safe_query sql = false) ∧
    (∀ sql : Chars, stripChars sql ≠ [] →
      (startsList (lit "SELECT") (stripChars (upperChars sql)) = true ∨
        startsList (lit "WITH") (stripChars (upperChars sql)) = true) →
      containsBlocked sql = false → is_safe_query sql = true) := by
  constructor
  · intro sql h
    unfold is_safe_query
    split
    · rfl
    · simp [h]
  · intro sql hne hstart hblock
    have hsql : sql ≠ [] := by
      intro h
      exact hne (by rw [h]; rfl)
    unfold is_safe_query
    rw [if_neg (by simp [hsql, hne])]
    rw [if_neg (by rcases hstart with h | h <;> simp [h])]
    simp [hblock]

/-- Witness for C1: a statement starting with SELECT but containing DELETE
    as a whole word is rejected, while a statement containing UPDATE only
    inside the identifier `updated_at` (exhibited by the substring check)
    is accepted. -/
theorem C1_blocklist_word_boundary_witness :
    is_safe_query (lit "SELECT name FROM t WHERE x = 1 OR DELETE") = false ∧
    is_safe_query (lit "SELECT updated_at FROM orders") = true ∧
    containsSub (lit "UPDATE") (upperChars (lit "SELECT updated_at FROM orders")) = true :=
  ⟨C1_blocklist_word_boundary.1 _ (by decide),
   C1_blocklist_word_boundary.2 _ (by decide) (by decide) (by decide),
   by decide⟩

/-- C4: for every validated statement, if the text does not contain LIMIT
    (case-insensitively) then `execute` appends a LIMIT clause rendering
    the caller-supplied cap (after stripping trailing semicolons), and
    otherwise the statement is passed to the database unmodified. -/
theorem C4_limit_appended (sql : Chars) (limit : Nat)
    (hsafe : is_safe_query sql = true) :
    (containsSub (lit "LIMIT") (upperChars sql) = false →
      execute_prepare sql limit =
        some (rstripSemi sql ++ lit " LIMIT " ++ natChars limit)) ∧
    (containsSub (lit "LIMIT") (upperChars sql) = true →
      execute_prepare sql limit = some sql) := by
  constructor <;> intro h <;> simp [execute_prepare, hsafe, h]

/-- Witness for C4: a statement without LIMIT gets `LIMIT 100` appended
    (semicolon stripped), a statement with a LIMIT clause is unchanged. -/
theorem C4_limit_appended_witness :
    execute_prepare (lit "SELECT * FROM products;") 100 =
      some (lit "SELECT * FROM products LIMIT 100") ∧
    execute_prepare (lit "SELECT * FROM products LIMIT 5") 100 =
      some (lit "SELECT * FROM products LIMIT 5") :=
  ⟨((C4_limit_appended (lit "SELECT * FROM products;") 100 (by decide)).1
      (by decide)).trans (by decide),
   (C4_limit_appended (lit "SELECT * FROM products LIMIT 5") 100 (by decide)).2
      (by decide)⟩

/-- C3 counterexample: the cache-key normalization is only
    `text.strip().lower()`, so two questions differing in terminal
    punctuation, or only in internal whitespace, get different keys. -/
theorem C3_normalization_counterexample :
    cacheNormalize (lit "hello?") ≠ cacheNormalize (lit "hello") ∧
    cacheNormalize (lit "restock  list") ≠ cacheNormalize (lit "restock list") := by
  decide

/-- C3 amended: questions differing only in letter case or in leading and
    trailing whitespace normalize to the same cache key (punctuation and
    internal whitespace are not normalized). -/
theorem C3_normalization_amended (w1 w2 q1 q2 : Chars)
    (h1 : ∀ c ∈ w1, pyIsSpace c = true) (h2 : ∀ c ∈ w2, pyIsSpace c = true)
    (hq : lowerChars q1 = lowerChars q2) :
    cacheNormalize (w1 ++ q1 ++ w2) = cacheNormalize q2 := by
  unfold cacheNormalize
  rw [stripChars_sandwich q1 h1 h2, ← stripChars_lower, hq, stripChars_lower]

/-- Witness for the amended C3: `"  Hello "` and `"hello"` share a key. -/
theorem C3_normalization_amended_witness :
    cacheNormalize (lit "  " ++ lit "Hello" ++ lit " ") = cacheNormalize (lit "hello") :=
  C3_normalization_amended (lit "  ") (lit " ") (lit "Hello") (lit "hello")
    (by decide) (by decide) (by decide)

/-- C5 counterexample: the bare unit word "month" DOES match the
    relative/quantified-range rule (its guard only rejects a match with
    neither group, which cannot happen since the unit group is mandatory),
    producing the current-month predicate. -/
theorem C5_bare_unit_counterexample :
    relApply (lit "month") (lit "created_at") ≠ none ∧
    get_date_filter 2025 (lit "month") (lit "created_at") =
      lit "strftime('%Y-%m', created_at) = strftime('%Y-%m', 'now', '+5 hours', '30 minutes')" := by
  constructor
  · decide
  · decide

/-- C5 amended: a bare unit word with no qualifying prefix and no count is
    accepted by the relative-range rule: "month" and "week" yield the
    current-period predicate, "day" and "year" yield a one-unit lookback
    predicate. -/
theorem C5_bare_unit_amended (y : Nat) :
    get_date_filter y (lit "month") (lit "created_at") =
      lit "strftime('%Y-%m', created_at) = strftime('%Y-%m', 'now', '+5 hours', '30 minutes')" ∧
    get_date_filter y (lit "week") (lit "created_at") =
      lit "DATE(created_at) >= date('now', '+5 hours', '30 minutes', 'weekday 0', '-7 days')" ∧
    get_date_filter y (lit "day") (lit "created_at") =
      lit "DATE(created_at) >= DATE('now', '-1 days', '+5 hours', '30 minutes')" ∧
    get_date_filter y (lit "year") (lit "created_at") =
      lit "DATE(created_at) >= DATE('now', '-1 years', '+5 hours', '30 minutes')" :=
  ⟨rfl, rfl, rfl, rfl⟩

/-- C6 counterexample: the Date Expression Resolver is NOT independent of
    the system-local clock: the default year of an explicit range with a
    missing year comes from `datetime.now()` (system-local time, modelled
    by `sysYear`), not from the fixed UTC+5:30 offset, so the same
    question yields different predicates for different local years. -/
theorem C6_fixed_now_counterexample :
    get_date_filter 2024 (lit "from 1 jan to 15 jan") (lit "created_at") ≠
      get_date_filter 2025 (lit "from 1 jan to 15 jan") (lit "created_at") := by
  decide

/-- C6 amended: the resolver is a pure function of the question, the
    column and the system clock, and the clock enters only through the
    explicit-range rule: whenever `from A to B` does not match, the result
    is independent of the system-local year (every other rule renders
    `'now'` inside SQLite text with the fixed `'+5 hours', '30 minutes'`
    offset). -/
theorem C6_fixed_now_amended (y1 y2 : Nat) (question col : Chars)
    (h : searchFromTo (lowerChars question) = none) :
    get_date_filter y1 question col = get_date_filter y2 question col := by
  simp only [get_date_filter, h]

/-- Witness for the amended C6: "last month" resolves identically under
    two different system-local years. -/
theorem C6_fixed_now_amended_witness :
    get_date_filter 2024 (lit "last month") (lit "created_at") =
      get_date_filter 2025 (lit "last month") (lit "created_at") :=
  C6_fixed_now_amended 2024 2025 (lit "last month") (lit "created_at") (by decide)

/-- C7: a question containing both "product" and "customer" but not
    "sold", which none of the conversational or stock-alert matchers
    catches, is delegated to the Fallback Generator (the purchase-query
    bypass), never a hardcoded product template; and the question
    "kisses bought by customer" is delegated as well. -/
theorem C7_product_customer_delegated :
    (∀ (llm rest : Chars → Chars) (identityJson question : Chars),
      isGreeting (q_clean_of (questionLower question)) = false →
      isIdentityQ (q_clean_of (questionLower question)) = false →
      isFarewell (questionLower question) = false →
      isHelp (q_clean_of (questionLower question)) = false →
      lowStockB (questionLower question) = false →
      outOfStockB (questionLower question) = false →
      containsSub (lit "product") (questionLower question) = true →
      containsSub (lit "customer") (questionLower question) = true →
      containsSub (lit "sold") (questionLower question) = false →
      (generate_sql llm rest identityJson question).1 = RouteTag.llmPurchase ∧
        (generate_sql llm rest identityJson question).2 = purchaseCleanup (llm question)) ∧
    (∀ (llm rest : Chars → Chars) (identityJson : Chars),
      (generate_sql llm rest identityJson (lit "kisses bought by customer")).1 =
        RouteTag.llmPurchase) := by
  constructor
  · intro llm rest idj q hg hi hf hh hls hos hp hc hs
    have hstc : soldToCustomerB (questionLower q) = false := by
      unfold soldToCustomerB
      cases hcase : containsSub (lit "sold to customer") (questionLower q) with
      | false => rfl
      | true =>
        exact absurd
          (containsSub_of_startsList (p := lit "sold") (q := lit "sold to customer")
            (by decide) hcase)
          (by simp [hs])
    have hpb : purchaseB (questionLower q) = true := by
      simp [purchaseB, hstc, hp, hc, hs]
    constructor <;> simp [generate_sql, hg, hi, hf, hh, hls, hos, hpb]
  · intro llm rest idj
    rfl

/-- Witness for C7: "product for customer" satisfies all side conditions
    and is delegated to the LLM path. -/
theorem C7_product_customer_delegated_witness :
    (generate_sql (fun _ => []) (fun _ => []) [] (lit "product for customer")).1 =
      RouteTag.llmPurchase ∧
    (generate_sql (fun _ => []) (fun _ => []) [] (lit "product for customer")).2 =
      purchaseCleanup [] :=
  C7_product_customer_delegated.1 (fun _ => []) (fun _ => []) [] (lit "product for customer")
    (by decide) (by decide) (by decide) (by decide) (by decide) (by decide)
    (by decide) (by decide) (by decide)

/-- C8: the question "low stock" routes to the exact hardcoded low-stock
    template, whose filter is `stock_quantity < 10` ordered by stock
    quantity ascending; the question "hi" yields a CONVERSATIONAL payload
    which the `/query` handler answers directly — the Safe SQL Executor is
    never invoked and the cache is untouched. -/
theorem C8_low_stock_and_greeting (llm rest : Chars → Chars) (identityJson : Chars)
    (dbOk : Chars → Bool) :
    (generate_sql llm rest identityJson (lit "low stock")).1 = RouteTag.lowStock ∧
    (generate_sql llm rest identityJson (lit "low stock")).2 = lowStockSQL ∧
    containsSub (lit "p.stock_quantity < 10") lowStockSQL = true ∧
    containsSub (lit "ORDER BY p.stock_quantity ASC") lowStockSQL = true ∧
    (generate_sql llm rest identityJson (lit "hi")).2 = greetingReply ∧
    startsList (lit "CONVERSATIONAL:") greetingReply = true ∧
    queryStep [] (lit "hi")
        (GenOutcome.ok (generate_sql llm rest identityJson (lit "hi")).2) dbOk =
      ⟨[], false, RespKind.conversational, []⟩ :=
  ⟨rfl, rfl, by decide, by decide, rfl, by decide, rfl⟩

/-- C2: the `/query` cache-write policy.  A generation failure leaves the
    cache unchanged; an execution failure leaves the cache unchanged; and
    whenever the cache changes at all, the request was a cache miss, the
    freshly generated SQL passed validation, the database accepted it, it
    is no CONVERSATIONAL:/IDENTITY: sentinel, it contains no
    `[DATE_CONDITION]` placeholder, and the only change is the write-back
    of that SQL under the question's key. -/
theorem C2_cache_write_policy (cache : List (Chars × Chars)) (question s : Chars)
    (dbOk : Chars → Bool) :
    (queryStep cache question GenOutcome.err dbOk).cache = cache ∧
    ((queryStep cache question (GenOutcome.ok s) dbOk).kind = RespKind.execFailed →
      (queryStep cache question (GenOutcome.ok s) dbOk).cache = cache) ∧
    ((queryStep cache question (GenOutcome.ok s) dbOk).cache ≠ cache →
      truthyOpt (cacheGet cache question) = false ∧ is_safe_query s = true ∧
      dbOk s = true ∧ startsList (lit "CONVERSATIONAL:") s = false ∧
      startsList (lit "IDENTITY:") s = false ∧
      containsSub (lit "[DATE_CONDITION]") s = false ∧
      (queryStep cache question (GenOutcome.ok s) dbOk).cache = cacheSet question s cache) := by
  refine ⟨?_, ?_, ?_⟩
  · rcases queryStep_cache_spec cache question GenOutcome.err dbOk with h | ⟨s', hs', _⟩
    · exact h
    · exact absurd hs' (by simp)
  · intro hkind
    rcases queryStep_cache_spec cache question (GenOutcome.ok s) dbOk with
      h | ⟨s', hs', _, _, _, _, _, _, hk, _⟩
    · exact h
    · rw [hkind] at hk
      exact absurd hk (by simp)
  · intro hne
    rcases queryStep_cache_spec cache question (GenOutcome.ok s) dbOk with
      h | ⟨s', hs', h2, h3, h4, h5, h6, h7, _, h9⟩
    · exact absurd h hne
    · injection hs' with hss
      subst hss
      exact ⟨h2, h3, h4, h5, h6, h7, h9⟩

/-- Witness for C2: a miss followed by successful execution of
    placeholder-free SQL writes exactly that entry, and a failing
    execution leaves the cache empty. -/
theorem C2_cache_write_policy_witness :
    (truthyOpt (cacheGet [] (lit "revenue today")) = false ∧
      is_safe_query (lit "SELECT SUM(total_amount) FROM invoices") = true ∧
      (fun _ => true : Chars → Bool) (lit "SELECT SUM(total_amount) FROM invoices") = true ∧
      startsList (lit "CONVERSATIONAL:") (lit "SELECT SUM(total_amount) FROM invoices") = false ∧
      startsList (lit "IDENTITY:") (lit "SELECT SUM(total_amount) FROM invoices") = false ∧
      containsSub (lit "[DATE_CONDITION]") (lit "SELECT SUM(total_amount) FROM invoices") = false ∧
      (queryStep [] (lit "revenue today")
          (GenOutcome.ok (lit "SELECT SUM(total_amount) FROM invoices"))
          (fun _ => true)).cache =
        cacheSet (lit "revenue today") (lit "SELECT SUM(total_amount) FROM invoices") []) ∧
    (queryStep [] (lit "revenue today")
        (GenOutcome.ok (lit "SELECT SUM(total_amount) FROM invoices"))
        (fun _ => false)).cache = [] :=
  ⟨(C2_cache_write_policy [] (lit "revenue today")
      (lit "SELECT SUM(total_amount) FROM invoices") (fun _ => true)).2.2 (by decide),
   (C2_cache_write_policy [] (lit "revenue today")
      (lit "SELECT SUM(total_amount) FROM invoices") (fun _ => false)).2.1 (by decide)⟩

/-- Invariant satisfied by every value the request path ever stores in the
    cache: trimmed and case-folded it starts with SELECT or WITH, it
    contains no blocklisted mutating keyword as a whole word, and it is no
    CONVERSATIONAL:/IDENTITY: sentinel. -/
def cacheValueInvariant (v : Chars) : Prop :=
  (startsList (lit "SELECT") (stripChars (upperChars v)) = true ∨
    startsList (lit "WITH") (stripChars (upperChars v)) = true) ∧
  containsBlocked v = false ∧
  startsList (lit "CONVERSATIONAL:") v = false ∧
  startsList (lit "IDENTITY:") v = false

theorem is_safe_query_spec {v : Chars} (h : is_safe_query v = true) :
    (startsList (lit "SELECT") (stripChars (upperChars v)) = true ∨
      startsList (lit "WITH") (stripChars (upperChars v)) = true) ∧
    containsBlocked v = false := by
  unfold is_safe_query at h
  split at h
  · exact absurd h (by simp)
  · simp only [] at h
    split at h
    · exact absurd h (by simp)
    · rename_i h1 h2
      have hor2 : (startsList (lit "SELECT") (stripChars (upperChars v)) ||
          startsList (lit "WITH") (stripChars (upperChars v))) = true := by
        cases hx : (startsList (lit "SELECT") (stripChars (upperChars v)) ||
            startsList (lit "WITH") (stripChars (upperChars v))) with
        | true => rfl
        | false => exact absurd (by rw [hx]; rfl) h2
      exact ⟨Bool.or_eq_true _ _ ▸ hor2, by simpa using h⟩

/-- C9: the request path preserves the cache-value invariant — every value
    it ever writes has passed the Executor's read-only validation and is
    never a CONVERSATIONAL:/IDENTITY: sentinel. -/
theorem C9_cache_invariant (cache : List (Chars × Chars)) (question : Chars)
    (gen : GenOutcome) (dbOk : Chars → Bool)
    (hinv : ∀ kv ∈ cache, cacheValueInvariant kv.2) :
    ∀ kv ∈ (queryStep cache question gen dbOk).cache, cacheValueInvariant kv.2 := by
  rcases queryStep_cache_spec cache question gen dbOk with
    h | ⟨s, _, _, hsafe, _, hconv, hident, _, _, hcache⟩
  · rw [h]; exact hinv
  · rw [hcache]
    intro kv hkv
    unfold cacheSet at hkv
    rcases mem_setAssoc hkv with h' | h'
    · rw [h']
      have hs := is_safe_query_spec hsafe
      exact ⟨hs.1, hs.2, hconv, hident⟩
    · exact hinv kv h'

/-- Witness for C9: starting from the empty cache, the entry written for a
    concrete successful request satisfies the invariant. -/
theorem C9_cache_invariant_witness :
    cacheValueInvariant (lit "SELECT SUM(total_amount) FROM invoices") :=
  C9_cache_invariant [] (lit "total revenue")
    (GenOutcome.ok (lit "SELECT SUM(total_amount) FROM invoices")) (fun _ => true)
    (fun kv hkv => absurd hkv (List.not_mem_nil kv))
    (cacheNormalize (lit "total revenue"), lit "SELECT SUM(total_amount) FROM invoices")
    (by decide)

/-- C10: totality and fall-through of the Date Expression Resolver.  If
    the explicit-range regex matches but either side fails to parse, the
    resolver falls through to the later rules instead of erring; a `week N`
    match always renders the digit run zero-padded; the append-year retry
    of `parse_date_str` is dead code (its first format repeats `%Y`, the
    resulting `re.error` escapes the inner `except ValueError` and the
    outer bare `except` swallows it), so it parses nothing; and when no
    rule matches at all the result is the empty string. -/
theorem C10_resolver_totality :
    (∀ (y : Nat) (question col : Chars) (g : Chars × Chars),
      searchFromTo (lowerChars question) = some g →
      (parse_date_str y (stripChars g.1) = none ∨
        parse_date_str y (stripChars g.2) = none) →
      get_date_filter y question col = dfRest (lowerChars question) col) ∧
    (∀ (y : Nat) (question col ds : Chars),
      searchFromTo (lowerChars question) = none →
      searchWeek (lowerChars question) = some ds →
      get_date_filter y question col =
        lit "strftime('%W', " ++ col ++ lit ") = '" ++
          padZero 2 (natChars (digitsToNat ds)) ++ lit "'") ∧
    (∀ n : Nat, n < 10 → padZero 2 (natChars n) = '0' :: natChars n) ∧
    (∀ s : Chars,
      tryFormatsRetry (fmtTokens.map (fun f => f ++ [FTok.ws, FTok.Y])) s = none) ∧
    (∀ (y : Nat) (question col : Chars),
      searchFromTo (lowerChars question) = none →
      searchWeek (lowerChars question) = none →
      weekdayLookup (lowerChars question) = none →
      relSearch (lowerChars question) = none →
      monthLookup (lowerChars question) = none →
      searchYear (lowerChars question) = none →
      dateShortcuts (lowerChars question) col = [] →
      get_date_filter y question col = []) := by
  refine ⟨?_, ?_, ?_, ?_, ?_⟩
  · intro y question col g hg hp
    simp only [get_date_filter, hg]
    rcases hp with hp | hp
    · rw [hp]
    · rw [hp]
      cases parse_date_str y (stripChars g.1) <;> rfl
  · intro y question col ds h1 h2
    simp only [get_date_filter, h1, dfRest, h2]
  · intro n hn
    interval_cases n <;> decide
  · intro s
    rfl
  · intro y question col h1 h2 h3 h4 h5 h6 h7
    simp only [get_date_filter, h1, dfRest, h2, h3, relApply, h4, h5, h6, h7]

/-- Witness for C10: an unparseable range falls through (both for a
    nonsense range and for `from 29 february to 5 march`, where the day is
    invalid for the 1900 `strptime` default and the dead retry cannot
    rescue it — the program then answers with the month rule), `week 7` is
    zero-padded, the retry parses nothing on a concrete input, dates the
    `datetime` constructor rejects (Feb 29 of 1900, year 0000) are
    unparseable, and a question matching no rule yields the empty
    string. -/
theorem C10_resolver_totality_witness :
    get_date_filter 2025 (lit "from x to y") (lit "c") =
      dfRest (lowerChars (lit "from x to y")) (lit "c") ∧
    get_date_filter 2024 (lit "from 29 february to 5 march") (lit "c") =
      dfRest (lowerChars (lit "from 29 february to 5 march")) (lit "c") ∧
    dfRest (lowerChars (lit "from 29 february to 5 march")) (lit "c") =
      lit "strftime('%m', c) = '02'" ∧
    parse_date_str 2024 (lit "29 february") = none ∧
    parse_date_str 2024 (lit "0000-01-01") = none ∧
    get_date_filter 2025 (lit "week 7") (lit "c") =
      lit "strftime('%W', " ++ lit "c" ++ lit ") = '" ++
        padZero 2 (natChars (digitsToNat (lit "7"))) ++ lit "'" ∧
    padZero 2 (natChars 7) = '0' :: natChars 7 ∧
    tryFormatsRetry (fmtTokens.map (fun f => f ++ [FTok.ws, FTok.Y]))
      (lit "1 jan 2024 2024") = none ∧
    get_date_filter 2025 (lit "xyz") (lit "c") = [] :=
  ⟨C10_resolver_totality.1 2025 (lit "from x to y") (lit "c") (lit "x", lit "y")
      (by decide) (Or.inl (by decide)),
   C10_resolver_totality.1 2024 (lit "from 29 february to 5 march") (lit "c")
      (lit "29 february", lit "5 march") (by decide) (Or.inl (by decide)),
   by decide,
   by decide,
   by decide,
   C10_resolver_totality.2.1 2025 (lit "week 7") (lit "c") (lit "7")
      (by decide) (by decide),
   C10_resolver_totality.2.2.1 7 (by omega),
   C10_resolver_totality.2.2.2.1 (lit "1 jan 2024 2024"),
   C10_resolver_totality.2.2.2.2 2025 (lit "xyz") (lit "c") (by decide) (by decide)
      (by decide) (by decide) (by decide) (by decide) (by decide)⟩
